import Mathlib

/-
Verification development for the ppc grading harness.

Shallow embedding of the two source files of the repository:
  .ppc/ppcgrader/compiler.py  (Compiler value, mutators, compile, constructors)
  .ppc/ppcgrader/commands.py  (timeout policy, test discovery, test loop,
                               test-uninit compiler selection, demo run)

Modelling conventions:
  - Python object mutation is made observable by letting every mutator
    return a pair: first component is the state of the receiver object
    after the call, second component is the value the method returned.
    A deepcopy-based mutator leaves the receiver untouched, so its first
    component equals the input.
  - Python exceptions are modelled with Except PyErr; a function that
    cannot raise is total.
  - Child-process spawns are modelled by passing the outcome of the spawn
    (completed with captured output, or timed out) as an explicit argument.
  - The filesystem is modelled by an explicit FS record of functions.
  - Python floats in the timeout policy are modelled as exact rationals;
    the decimal-literal subset of the float() builtin is modelled, which
    covers every value the timeout grammar of the test files produces.
  - The platform is fixed to Linux (platform.system() is not Darwin), the
    platform on which the graded exercises run.
-/

set_option autoImplicit false

deriving instance DecidableEq for Except

namespace PPC

/-- Python exceptions that the modelled code can raise, plus sys.exit. -/
inductive PyErr where
  | typeError
  | valueError
  | indexError
  | fileNotFound
  | timeoutExpired
  | sysExit
  deriving Repr, DecidableEq

/-- The three concrete compiler families of compiler.py plus the plain base
class Compiler. The family plays the role of the Python dynamic class tag
used by isinstance checks and method dispatch. -/
inductive Family where
  | base
  | gcc
  | clang
  | nvcc
  deriving Repr, DecidableEq

/-- State of a Compiler object: program name, toolchain common flags,
user-added flags, sources and libraries, plus the probed version triple
(GccCompiler and ClangCompiler) and the Apple vendor flag (ClangCompiler).
Fields version and apple default to none for families that do not set them. -/
structure Compiler where
  family : Family
  program : String
  common_flags : List String
  flags : List String
  sources : List String
  libs : List String
  version : Option (Int × Int × Int) := none
  apple : Option Bool := none
  deriving Repr, DecidableEq

/-- Byte prefix test, modelling the Python str.startswith method. -/
def pyStartsWith (s pre : String) : Bool :=
  pre.data.isPrefixOf s.data

namespace Compiler

/-- Compiler.add_source: deepcopy, then append the file to sources.
Returns (receiver after the call, returned value). -/
def add_source (c : Compiler) (file : String) : Compiler × Compiler :=
  (c, { c with sources := c.sources ++ [file] })

/-- Compiler.add_library: deepcopy, normalize the name to a -l argument
unless it already starts with -l, then append to libs.
Returns (receiver after the call, returned value). -/
def add_library (c : Compiler) (lib : String) : Compiler × Compiler :=
  let lib := if pyStartsWith lib "-l" then lib else "-l" ++ lib
  (c, { c with libs := c.libs ++ [lib] })

/-- Compiler.add_flag: deepcopy, then extend flags with the given flags
in order. Returns (receiver after the call, returned value). -/
def add_flag (c : Compiler) (fs : List String) : Compiler × Compiler :=
  (c, { c with flags := c.flags ++ fs })

/-- Compiler.add_definition: delegates to add_flag with a -D argument,
with or without a value. Returns (receiver after the call, returned value). -/
def add_definition (c : Compiler) (name : String) (value : Option String) :
    Compiler × Compiler :=
  match value with
  | none => c.add_flag ["-D" ++ name]
  | some v => c.add_flag ["-D" ++ name ++ "=" ++ v]

/-- add_omp_flags with dynamic dispatch on the family, on Linux.
Base and GccCompiler use the base implementation, one added flag via
add_flag (deepcopy). ClangCompiler on Linux takes the non-Darwin branch,
also plain add_flag. NvccCompiler instead extends common_flags of the
receiver in place and returns the receiver itself.
Returns (receiver after the call, returned value). -/
def add_omp_flags (c : Compiler) : Compiler × Compiler :=
  match c.family with
  | .nvcc =>
    let c := { c with common_flags := c.common_flags ++ ["-Xcompiler", "-fopenmp"] }
    (c, c)
  | _ => c.add_flag ["-fopenmp"]

/-- Compiler.compile_command: the exact argument vector of one compile. -/
def compile_command (c : Compiler) (out_file : String) : List String :=
  [c.program] ++ c.common_flags ++ c.flags ++ c.sources ++ ["-o", out_file] ++ c.libs

end Compiler

/-- Result of one compile invocation, as in compiler.py. -/
structure CompilerOutput where
  stdout : String
  stderr : String
  returncode : Int
  deriving Repr, DecidableEq

/-- CompilerOutput.is_success: return code zero. -/
def CompilerOutput.is_success (o : CompilerOutput) : Bool :=
  o.returncode == 0

/-- Truncation cap for captured compiler output, in characters. -/
def MAX_COMPILER_OUTPUT : Nat := 30000

/-- Outcome of one child-process spawn awaited by subprocess.run:
either the process completed with captured streams and a return code,
or the deadline elapsed and subprocess raised TimeoutExpired. -/
inductive SpawnResult where
  | completed (stdout stderr : String) (returncode : Int)
  | timedOut
  deriving Repr, DecidableEq

/-- Compiler.compile: runs the compile command; on completion truncates
both streams to the cap; on a timeout catches TimeoutExpired and
synthesizes a failure CompilerOutput with return code -1 and an
explanatory stderr. The rendering of the timeout value inside the message
is passed in as timeoutStr (Python str of the float). Total: a timeout is
never re-raised by compile. -/
def Compiler.compile (c : Compiler) (out_file : String) (timeoutStr : String)
    (spawn : SpawnResult) : CompilerOutput :=
  match c, out_file, spawn with
  | _, _, .completed out err rc =>
    { stdout := out.take MAX_COMPILER_OUTPUT
      stderr := err.take MAX_COMPILER_OUTPUT
      returncode := rc }
  | _, _, .timedOut =>
    { stdout := ""
      stderr := "Compilation process took longer than " ++ timeoutStr
                  ++ "s, killed the process"
      returncode := -1 }

/-- GccCompiler construction: family gcc, the fixed common flag list of
compiler.py, and the version triple produced by the constructor-time probe
(none when the probe failed or the binary is actually clang). -/
def GccCompiler.make (program : String) (version : Option (Int × Int × Int)) :
    Compiler where
  family := .gcc
  program := program
  common_flags :=
    [ "-std=c++2a"
    , "-Wall"
    , "-Wextra"
    , "-Wvla"
    , "-Werror"
    , "-Wno-error=unknown-pragmas"
    , "-Wno-error=unused-but-set-variable"
    , "-Wno-error=unused-local-typedefs"
    , "-Wno-error=unused-function"
    , "-Wno-error=unused-label"
    , "-Wno-error=unused-value"
    , "-Wno-error=unused-variable"
    , "-Wno-error=unused-parameter"
    , "-Wno-error=unused-but-set-parameter"
    , "-Wno-psabi"
    , "-march=native"
    , "-fdiagnostics-color=never" ]
  flags := []
  sources := []
  libs := []
  version := version
  apple := none

/-- ClangCompiler construction on Linux: family clang, the fixed flag list
(keeping -march=native since the host is not Darwin arm64), with
-Wno-psabi appended when the probed major version is at least 11 and the
vendor probe established a non-Apple compiler. -/
def ClangCompiler.make (program : String) (version : Option (Int × Int × Int))
    (apple : Option Bool) : Compiler :=
  let base :=
    [ "-std=c++2a"
    , "-Wall"
    , "-Wextra"
    , "-Wvla"
    , "-Werror"
    , "-Wno-unknown-warning-option"
    , "-Wno-error=unknown-pragmas"
    , "-Wno-error=unused-but-set-variable"
    , "-Wno-error=unused-local-typedefs"
    , "-Wno-error=unused-function"
    , "-Wno-error=unused-label"
    , "-Wno-error=unused-value"
    , "-Wno-error=unused-variable"
    , "-Wno-error=unused-parameter"
    , "-Wno-error=unused-but-set-parameter"
    , "-march=native" ]
  let psabi :=
    (match version with
     | some v => decide (11 ≤ v.1)
     | none => false) && (apple == some false)
  { family := .clang
    program := program
    common_flags := if psabi then base ++ ["-Wno-psabi"] else base
    flags := []
    sources := []
    libs := []
    version := version
    apple := apple }

/-- NvccCompiler construction: family nvcc and the fixed common flag list
of compiler.py; nvcc performs no version probe. -/
def NvccCompiler.make (program : String) : Compiler where
  family := .nvcc
  program := program
  common_flags :=
    [ "-std=c++17"
    , "--Werror"
    , "cross-execution-space-call"
    , "-Xptxas"
    , "--warn-on-spills"
    , "-Xcompiler"
    , "\"-Wall\""
    , "-Xcompiler"
    , "\"-Wextra\""
    , "-Xcompiler"
    , "\"-Werror\""
    , "-Xcompiler"
    , "\"-Wno-error=unknown-pragmas\""
    , "-Xcompiler"
    , "\"-Wno-error=unused-local-typedefs\""
    , "-Xcompiler"
    , "\"-Wno-error=unused-function\""
    , "-Xcompiler"
    , "\"-Wno-error=unused-label\""
    , "-Xcompiler"
    , "\"-Wno-error=unused-value\""
    , "-Xcompiler"
    , "\"-Wno-error=unused-variable\""
    , "-Xcompiler"
    , "\"-Wno-error=unused-parameter\""
    , "-Xcompiler"
    , "\"-Wno-psabi\""
    , "-Xcompiler"
    , "\"-march=native\"" ]
  flags := []
  sources := []
  libs := []

/-! Filesystem model shared by the timeout policy and test discovery. -/

/-- Abstract filesystem: existence of a path, the match list glob.glob
returns for a pattern (in arbitrary on-disk order, before the code sorts
it), and the string readline() returns for the first line of a file
(none when opening the file raises FileNotFoundError). -/
structure FS where
  exists_path : String → Bool
  glob : String → List String
  first_line : String → Option String

/-! Python string helpers, implemented by structural recursion on the
character list so that concrete instances evaluate inside the kernel. -/

/-- Split a character list at every occurrence of the separator, keeping
empty pieces, exactly like the Python str.split method with an explicit
single-character separator. -/
def pySplitChar (sep : Char) : List Char → List (List Char)
  | [] => [[]]
  | c :: rest =>
    let r := pySplitChar sep rest
    if c = sep then [] :: r
    else
      match r with
      | [] => [[c]]
      | w :: ws => (c :: w) :: ws

/-- Python str.split with a single space separator, on strings. -/
def pySplit (s : String) : List String :=
  (pySplitChar ' ' s.data).map (fun cs => String.mk cs)

/-- Whitespace characters stripped by the Python float() builtin. -/
def isPySpace (c : Char) : Bool :=
  c = ' ' || c = '\t' || c = '\n' || c = '\r' || c = '\x0b' || c = '\x0c'

/-- Strip leading and trailing whitespace from a character list. -/
def pyStripChars (cs : List Char) : List Char :=
  ((cs.dropWhile isPySpace).reverse.dropWhile isPySpace).reverse

/-- Numeric value of a nonempty all-digit character list, none otherwise. -/
def digitsToNat : List Char → Option Nat
  | [] => none
  | cs =>
    if cs.all Char.isDigit then
      some (cs.foldl (fun a c => 10 * a + (c.toNat - 48)) 0)
    else none

/-- The decimal-literal subset of the Python float() builtin: optional
surrounding whitespace, optional leading minus sign, digits with an
optional fractional part. Other accepted spellings of the builtin
(exponents, inf, nan) do not occur in the timeout grammar and are not
modelled; on them and on malformed input the result is none, standing for
a ValueError. -/
def pyFloat (s : String) : Option ℚ :=
  let t := pyStripChars s.data
  let (neg, body) :=
    match t with
    | '-' :: rest => (true, rest)
    | _ => (false, t)
  let signed : ℚ → ℚ := fun q => if neg then -q else q
  match pySplitChar '.' body with
  | [w] =>
    match digitsToNat w with
    | some n => some (signed n)
    | none => none
  | [w, f] =>
    if w.isEmpty && f.isEmpty then none
    else
      match (if w.isEmpty then some 0 else digitsToNat w),
            (if f.isEmpty then some 0 else digitsToNat f) with
      | some wn, some fn =>
        some (signed ((wn : ℚ) + (fn : ℚ) / ((10 : ℚ) ^ f.length)))
      | _, _ => none
  | _ => none

/-- Python truthiness of an Optional bool: None is falsy. -/
def truthyOptBool : Option Bool → Bool
  | some b => b
  | none => false

/-- Python truthiness of an Optional float: None and 0.0 are falsy. -/
def truthyOptRat : Option ℚ → Bool
  | some q => !(q == 0)
  | none => false

/-! Timeout policy of commands.py. -/

/-- A Python float that may be the infinity sentinel. -/
inductive PyFloatVal where
  | fin (q : ℚ)
  | inf
  deriving Repr, DecidableEq

/-- parse_timeout of commands.py: no_timeout wins and yields none (no
deadline); a truthy explicit override is returned as is; otherwise the
first line of the file is read (FileNotFoundError if absent) and split on
spaces; if the first token is the word timeout, the second token is parsed
as a float (IndexError if missing, ValueError if malformed) and
extra_timeout is added when supplied; any other first line yields none. -/
def parse_timeout (fs : FS) (file : String) (timeout : Option ℚ)
    (no_timeout : Option Bool) (extra_timeout : Option ℚ) :
    Except PyErr (Option ℚ) :=
  if truthyOptBool no_timeout then .ok none
  else if truthyOptRat timeout then .ok timeout
  else
    match fs.first_line file with
    | none => .error .fileNotFound
    | some line =>
      let toks := pySplit line
      if toks.headD "" = "timeout" then
        match toks[1]? with
        | none => .error .indexError
        | some t =>
          match pyFloat t with
          | none => .error .valueError
          | some v =>
            match extra_timeout with
            | some e => .ok (some (v + e))
            | none => .ok (some v)
      else .ok none

/-- Loop body of timeout_for_test_set: accumulate the per-file timeouts,
returning infinity the moment one file yields no deadline. -/
def timeout_for_test_set_go (fs : FS) (timeout : Option ℚ)
    (no_timeout : Option Bool) (extra_timeout : ℚ) :
    List String → ℚ → Except PyErr PyFloatVal
  | [], acc => .ok (.fin acc)
  | f :: rest, acc =>
    match parse_timeout fs f timeout no_timeout (some extra_timeout) with
    | .error e => .error e
    | .ok none => .ok .inf
    | .ok (some t) => timeout_for_test_set_go fs timeout no_timeout extra_timeout rest (acc + t)

/-- timeout_for_test_set of commands.py: sum of parse_timeout over the
files, infinite as soon as one file has no deadline. -/
def timeout_for_test_set (fs : FS) (files : List String) (timeout : Option ℚ)
    (no_timeout : Option Bool) (extra_timeout : ℚ) : Except PyErr PyFloatVal :=
  timeout_for_test_set_go fs timeout no_timeout extra_timeout files 0

/-! Test discovery of commands.py. -/

/-- Lexicographic order on strings as a boolean, used to model the Python
sorted builtin on glob matches. -/
def strLeChars : List Char → List Char → Bool
  | [], _ => true
  | _ :: _, [] => false
  | a :: as, b :: bs => if a = b then strLeChars as bs else decide (a < b)

/-- Insert a string into a sorted list, keeping it sorted. -/
def insertStr (x : String) : List String → List String
  | [] => [x]
  | y :: ys => if strLeChars x.data y.data then x :: y :: ys else y :: insertStr x ys

/-- Insertion sort by the lexicographic string order, modelling sorted. -/
def sortStrings : List String → List String
  | [] => []
  | x :: xs => insertStr x (sortStrings xs)

/-- Expansion of one pattern inside expand_glob: a pattern naming an
existing path stands for itself, otherwise for its sorted glob matches. -/
def expand_one (fs : FS) (pattern : String) : List String :=
  if fs.exists_path pattern then [pattern] else sortStrings (fs.glob pattern)

/-- expand_glob of commands.py: when no user patterns were provided the
default patterns are substituted, then every pattern in the resulting list
is expanded and the results are concatenated in pattern order. -/
def expand_glob (fs : FS) (globs : List String) (deflt : List String) : List String :=
  ((if globs.isEmpty then deflt else globs).map (expand_one fs)).flatten

/-- Diagnostic carried by the sys.exit of no_tests_error: it names either
the rejected user patterns or the default directories whose contents are
missing. -/
inductive NoTestsDiag where
  | userPatterns (ps : List String)
  | missingDefaults (ds : List String)
  deriving Repr, DecidableEq

/-- TestCommandBase.collect_tests: expand the user patterns against the
defaults tests/* and benchmarks/*; abort via no_tests_error when the
result is empty, naming the user patterns when there were any and the two
default directories otherwise. -/
def collect_tests (fs : FS) (user_tests : List String) :
    Except NoTestsDiag (List String) :=
  let tests := expand_glob fs user_tests ["tests/*", "benchmarks/*"]
  if tests.isEmpty then
    .error (if user_tests.isEmpty then .missingDefaults ["tests", "benchmarks"]
            else .userPatterns user_tests)
  else .ok tests

/-- Discovery as the specification words it, for comparison with
expand_glob: user patterns behave as in the code, but with no user
patterns the default globs are tried in order and the first default whose
expansion is non-empty wins outright. -/
def discover_spec_first_nonempty (fs : FS) (globs : List String)
    (deflt : List String) : List String :=
  if globs.isEmpty then
    match deflt.find? (fun p => !(expand_one fs p).isEmpty) with
    | some p => expand_one fs p
    | none => []
  else (globs.map (expand_one fs)).flatten

/-! Per-test execution loop of TestCommandBase. -/

/-- The two fields of a RunnerOutput that the loop inspects. -/
structure RunnerOutput where
  errors : Bool
  run_successful : Bool
  deriving Repr, DecidableEq

/-- A runner outcome the loop counts as a failure: reported errors or an
unsuccessful run. -/
def failingOutput (o : RunnerOutput) : Bool :=
  o.errors || !o.run_successful

/-- The per-test loop of TestCommandBase exec rest: each test in order is
run and its result reported; with ignore_errors unset the loop returns
False right after reporting the first failing test, leaving the remaining
tests unrun and unreported. The returned list is the trace of tests that
were run and reported, in order. -/
def run_tests (ignore_errors : Bool) :
    List (String × RunnerOutput) → List (String × RunnerOutput) × Bool
  | [] => ([], true)
  | (t, o) :: rest =>
    if !ignore_errors && failingOutput o then ([(t, o)], false)
    else
      let r := run_tests ignore_errors rest
      ((t, o) :: r.1, r.2)

/-- TestCommandBase exec rest after compiler preparation: a failed
compilation returns False with no test run; otherwise the per-test loop
runs. The outcome of each potential test run is supplied as a list. -/
def exec_rest (ignore_errors : Bool) (compile_ok : Bool)
    (outs : List (String × RunnerOutput)) : List (String × RunnerOutput) × Bool :=
  if compile_ok then run_tests ignore_errors outs else ([], false)

/-! Compiler selection of TestUninitCommand. -/

/-- Python truthiness of the value returned by the version check helpers,
which return True, False or None (the implicit return). -/
def truthy : Option Bool → Bool
  | some b => b
  | none => false

/-- TestUninitCommand gcc check: on a GccCompiler instance the probed
major version is compared against 12; subscripting an absent version
raises TypeError; on anything else (including None) the method falls
through and returns None. -/
def gcc_check (compiler : Option Compiler) : Except PyErr (Option Bool) :=
  match compiler with
  | some c =>
    if c.family = .gcc then
      match c.version with
      | some v => .ok (some (decide (12 ≤ v.1)))
      | none => .error .typeError
    else .ok none
  | none => .ok none

/-- TestUninitCommand clang check: like the gcc check with the ClangCompiler
class and major version threshold 8. -/
def clang_check (compiler : Option Compiler) : Except PyErr (Option Bool) :=
  match compiler with
  | some c =>
    if c.family = .clang then
      match c.version with
      | some v => .ok (some (decide (8 ≤ v.1)))
      | none => .error .typeError
    else .ok none
  | none => .ok none

/-- Environment of one TestUninitCommand selection: the compiler the
generic Config lookup would produce (sys.exit when none), and the results
of the find_gcc_compiler and find_clang_compiler probes. -/
structure Env where
  config_compiler : Option Compiler
  found_gcc : Option Compiler
  found_clang : Option Compiler

/-- TestUninitCommand find compiler: first the generic availability check
(sys.exit when the Config finds no compiler at all); then, with no pinned
compiler, the gcc probe result is accepted if it passes the gcc check,
else the clang probe result if it passes the clang check; with a pinned
compiler only that compiler is checked against both versions and never
substituted; none is returned when nothing qualifies. -/
def TestUninit.find_compiler (env : Env) (compiler : Option Compiler) :
    Except PyErr (Option Compiler) :=
  if env.config_compiler.isNone then .error .sysExit
  else
    match compiler with
    | none =>
      match gcc_check env.found_gcc with
      | .error e => .error e
      | .ok g =>
        if truthy g then .ok env.found_gcc
        else
          match clang_check env.found_clang with
          | .error e => .error e
          | .ok cl => if truthy cl then .ok env.found_clang else .ok none
    | some c =>
      match gcc_check (some c) with
      | .error e => .error e
      | .ok g =>
        if truthy g then .ok (some c)
        else
          match clang_check (some c) with
          | .error e => .error e
          | .ok cl => if truthy cl then .ok (some c) else .ok none

/-- TestUninitCommand exec: when selection produced no qualifying
compiler, the limitation is reported and the command returns True when
not running remotely, and otherwise returns the ignore_errors setting;
when a compiler qualifies, the generic exec rest runs with it and its
result is returned (supplied here as a function of the chosen compiler). -/
def TestUninit.exec (env : Env) (on_remote ignore_errors : Bool)
    (compiler : Option Compiler) (exec_rest_result : Compiler → Bool) :
    Except PyErr Bool :=
  match TestUninit.find_compiler env compiler with
  | .error e => .error e
  | .ok none =>
    if !on_remote then .ok true
    else if ignore_errors then .ok true
    else .ok false
  | .ok (some c) => .ok (exec_rest_result c)

/-! Demo single-shot run of RunDemoCommand. -/

/-- Outcome of the subprocess.check_output spawn of the demo binary:
captured output on exit code zero, CalledProcessError on a nonzero exit,
TimeoutExpired when the deadline elapsed. -/
inductive DemoSpawn where
  | output (out : String)
  | calledProcessError (returncode : Int) (out : String)
  | timedOut
  deriving Repr, DecidableEq

/-- RunDemoCommand run demo: on success the output is post-processed and
True is returned; a CalledProcessError is caught, the error and output are
reported and the method falls off the end returning None; TimeoutExpired
is not caught and propagates out as an exception. The Python return type
is the optional bool. -/
def run_demo (spawn : DemoSpawn) : Except PyErr (Option Bool) :=
  match spawn with
  | .output _ => .ok (some true)
  | .calledProcessError _ _ => .ok none
  | .timedOut => .error .timeoutExpired

/-! Concrete instances used to evaluate the theorems on explicit inputs. -/

/-- Filesystem with no literal paths, where the default test and benchmark
globs each match one file. -/
def fs5 : FS where
  exists_path := fun _ => false
  glob := fun p =>
    if p = "tests/*" then ["tests/a"]
    else if p = "benchmarks/*" then ["benchmarks/b"]
    else []
  first_line := fun _ => none

/-- Filesystem with two test files declaring timeouts of five and seven
seconds. -/
def fs7 : FS where
  exists_path := fun _ => false
  glob := fun _ => []
  first_line := fun f =>
    if f = "ta" then some "timeout 5"
    else if f = "tb" then some "timeout 7"
    else none

/-- Filesystem with one test file declaring a five second timeout and one
whose first line is unrelated. -/
def fs8 : FS where
  exists_path := fun _ => false
  glob := fun _ => []
  first_line := fun f =>
    if f = "t5" then some "timeout 5"
    else some "x 1"

/-- Selection environment whose generic Config lookup finds a gcc at
version 12 and whose family probes find nothing. -/
def env3 : Env where
  config_compiler := some (GccCompiler.make "g++" (some (12, 0, 0)))
  found_gcc := none
  found_clang := none

/-- Stand-in for the generic exec rest of a test command, used when
evaluating TestUninit.exec on concrete inputs. -/
def constFalseRest : Compiler → Bool := fun _ => false

/-! Claim C1. -/

/-- C1, counterexample: the claim states that every mutator on every
family leaves the receiver unchanged, but add_omp_flags on an
NvccCompiler extends the common flags of the receiver itself, so after
the call the receiver differs from its original value. -/
theorem claim_C1_counterexample :
    ((NvccCompiler.make "nvcc").add_omp_flags).1 ≠ NvccCompiler.make "nvcc" := by
  intro h
  have hlen := congrArg (fun c => c.common_flags.length) h
  simp [Compiler.add_omp_flags, NvccCompiler.make] at hlen

/-- C1, amended: add_source, add_library, add_flag and add_definition
always return a new Compiler with the addition applied and leave the
receiver unchanged, and so does add_omp_flags on the base, gcc and clang
families; on the nvcc family add_omp_flags instead appends the forwarded
OpenMP flag pair to the common flags of the receiver in place and returns
the mutated receiver itself. -/
theorem claim_C1 :
    (∀ (c : Compiler) (f : String),
       (c.add_source f).1 = c
       ∧ (c.add_source f).2 = { c with sources := c.sources ++ [f] })
    ∧ (∀ (c : Compiler) (l : String), (c.add_library l).1 = c)
    ∧ (∀ (c : Compiler) (fs : List String),
       (c.add_flag fs).1 = c
       ∧ (c.add_flag fs).2 = { c with flags := c.flags ++ fs })
    ∧ (∀ (c : Compiler) (n : String) (v : Option String),
       (c.add_definition n v).1 = c)
    ∧ (∀ c : Compiler, c.family ≠ .nvcc →
       (c.add_omp_flags).1 = c
       ∧ (c.add_omp_flags).2 = { c with flags := c.flags ++ ["-fopenmp"] })
    ∧ (∀ c : Compiler, c.family = .nvcc →
       (c.add_omp_flags).1 = (c.add_omp_flags).2
       ∧ (c.add_omp_flags).1
           = { c with common_flags := c.common_flags ++ ["-Xcompiler", "-fopenmp"] }) := by
  refine ⟨fun c f => ⟨rfl, rfl⟩, fun c l => rfl, fun c fs => ⟨rfl, rfl⟩, ?_, ?_, ?_⟩
  · intro c n v
    cases v <;> rfl
  · intro c h
    obtain ⟨fam, prog, cf, fl, src, lb, ver, ap⟩ := c
    cases fam
    · exact ⟨rfl, rfl⟩
    · exact ⟨rfl, rfl⟩
    · exact ⟨rfl, rfl⟩
    · exact absurd rfl h
  · intro c h
    obtain ⟨fam, prog, cf, fl, src, lb, ver, ap⟩ := c
    cases h
    exact ⟨rfl, rfl⟩

/-- C1, witness: on a concrete gcc compiler add_omp_flags leaves the
receiver unchanged, while on a concrete nvcc compiler the call returns
the receiver itself with the flag pair appended to its common flags. -/
theorem claim_C1_witness :
    ((GccCompiler.make "g++" (some (12, 0, 0))).add_omp_flags).1
      = GccCompiler.make "g++" (some (12, 0, 0))
    ∧ ((NvccCompiler.make "nvcc").add_omp_flags).1
      = ((NvccCompiler.make "nvcc").add_omp_flags).2 := by
  exact ⟨(claim_C1.2.2.2.2.1 _ (by decide)).1, (claim_C1.2.2.2.2.2 _ rfl).1⟩

/-! Claim C2. -/

/-- C2, counterexample: the claim states that no spawn surfaces a timeout
as an unhandled exception, including the single-shot demo run, but the
demo run catches only CalledProcessError, so an elapsed deadline
propagates TimeoutExpired to the caller instead of producing a result. -/
theorem claim_C2_counterexample :
    run_demo DemoSpawn.timedOut = .error PyErr.timeoutExpired := rfl

/-- C2, amended: Compiler.compile never surfaces a timeout: an elapsed
deadline is synthesized into a CompilerOutput with empty stdout, an
explanatory stderr and return code -1, hence not a success, while a
completed spawn is returned with both streams truncated to the cap. The
demo single-shot run handles a nonzero exit by reporting it and returning
None and handles a normal exit by returning True, but a timeout of the
demo child is not caught and propagates as a TimeoutExpired exception. -/
theorem claim_C2 :
    (∀ (c : Compiler) (out_file tstr : String),
       c.compile out_file tstr SpawnResult.timedOut
         = { stdout := ""
             stderr := "Compilation process took longer than " ++ tstr
                         ++ "s, killed the process"
             returncode := -1 }
       ∧ (c.compile out_file tstr SpawnResult.timedOut).is_success = false)
    ∧ (∀ (c : Compiler) (out_file tstr o e : String) (rc : Int),
       c.compile out_file tstr (SpawnResult.completed o e rc)
         = { stdout := o.take MAX_COMPILER_OUTPUT
             stderr := e.take MAX_COMPILER_OUTPUT
             returncode := rc })
    ∧ (∀ (rc : Int) (out : String),
       run_demo (DemoSpawn.calledProcessError rc out) = .ok none)
    ∧ (∀ out : String, run_demo (DemoSpawn.output out) = .ok (some true))
    ∧ run_demo DemoSpawn.timedOut = .error PyErr.timeoutExpired := by
  exact ⟨fun c o t => ⟨rfl, rfl⟩, fun c o t a b rc => rfl, fun rc o => rfl,
    fun o => rfl, rfl⟩

/-! Claim C6. -/

/-- C6, the code slip at the failing input: a pinned GNU-family compiler
whose version probe failed carries version None, and the test-uninit gcc
version check subscripts that absent version, raising TypeError instead
of rejecting the toolchain; the whole selection therefore raises rather
than degrading gracefully. -/
theorem claim_C6_bug :
    gcc_check (some (GccCompiler.make "g++" none)) = .error PyErr.typeError
    ∧ TestUninit.find_compiler env3 (some (GccCompiler.make "g++" none))
        = .error PyErr.typeError := by
  exact ⟨rfl, rfl⟩

/-! Claim C9. -/

/-- C9: compile_command is exactly program, common flags, added flags,
sources, the -o pair, then libraries, each segment in its recorded order,
and nothing is reordered, deduplicated or inserted: even a flag added
twice appears twice at its position. -/
theorem claim_C9 :
    ∀ (c : Compiler) (out_file f : String),
      c.compile_command out_file
        = [c.program] ++ c.common_flags ++ c.flags ++ c.sources
            ++ ["-o", out_file] ++ c.libs
      ∧ ((c.add_flag [f, f]).2).compile_command out_file
        = [c.program] ++ c.common_flags ++ (c.flags ++ [f, f]) ++ c.sources
            ++ ["-o", out_file] ++ c.libs := by
  exact fun c out f => ⟨rfl, rfl⟩

/-! Claim C10. -/

/-- C10: add_library appends the name itself when it already starts with
the -l prefix and prepends -l otherwise, so adding the library m and
adding the literal -lm produce equal results. -/
theorem claim_C10 :
    ∀ (c : Compiler) (n : String),
      ((c.add_library n).2).libs
        = c.libs ++ [if pyStartsWith n "-l" then n else "-l" ++ n]
      ∧ (c.add_library "m").2 = (c.add_library "-lm").2 := by
  intro c n
  constructor
  · rfl
  · show ({ c with libs := c.libs ++ [if pyStartsWith "m" "-l" then "m" else "-l" ++ "m"] } : Compiler)
        = { c with libs := c.libs ++ [if pyStartsWith "-lm" "-l" then "-lm" else "-l" ++ "-lm"] }
    have h1 : (if pyStartsWith "m" "-l" then "m" else "-l" ++ "m") = "-lm" := by decide
    have h2 : (if pyStartsWith "-lm" "-l" then "-lm" else "-l" ++ "-lm") = "-lm" := by decide
    rw [h1, h2]

/-! Claim C4. -/

/-- With errors ignored the loop runs and reports every test and succeeds. -/
theorem run_tests_ignore (outs : List (String × RunnerOutput)) :
    run_tests true outs = (outs, true) := by
  induction outs with
  | nil => rfl
  | cons x rest ih =>
    obtain ⟨t, o⟩ := x
    simp [run_tests, ih]

/-- Without ignored errors the loop runs every test and succeeds when no
test fails. -/
theorem run_tests_all_pass (outs : List (String × RunnerOutput))
    (h : ∀ x ∈ outs, failingOutput x.2 = false) :
    run_tests false outs = (outs, true) := by
  induction outs with
  | nil => rfl
  | cons x rest ih =>
    obtain ⟨t, o⟩ := x
    have ho : failingOutput o = false := h (t, o) (List.mem_cons_self _ _)
    simp [run_tests, ho, ih (fun y hy => h y (List.mem_cons_of_mem _ hy))]

/-- Without ignored errors the loop stops right after reporting the first
failing test and fails. -/
theorem run_tests_fail_fast (pre post : List (String × RunnerOutput))
    (t : String) (o : RunnerOutput)
    (hpre : ∀ x ∈ pre, failingOutput x.2 = false)
    (ho : failingOutput o = true) :
    run_tests false (pre ++ (t, o) :: post) = (pre ++ [(t, o)], false) := by
  induction pre with
  | nil => simp [run_tests, ho]
  | cons x rest ih =>
    obtain ⟨t1, o1⟩ := x
    have h1 : failingOutput o1 = false := hpre (t1, o1) (List.mem_cons_self _ _)
    simp [run_tests, h1, ih (fun y hy => hpre y (List.mem_cons_of_mem _ hy))]

/-- C4: after a successful compilation, with ignore_errors unset the
per-test loop runs and reports tests in order up to and including the
first failing one (errors reported or run not successful), leaves the
remaining tests unrun and unreported, and the command returns False; when
no test fails every test runs and the command returns True; with
ignore_errors set every test is run and reported and the command returns
True regardless of failures. -/
theorem claim_C4 :
    (∀ outs : List (String × RunnerOutput), exec_rest true true outs = (outs, true))
    ∧ (∀ (pre post : List (String × RunnerOutput)) (t : String) (o : RunnerOutput),
       (∀ x ∈ pre, failingOutput x.2 = false) → failingOutput o = true →
       exec_rest false true (pre ++ (t, o) :: post) = (pre ++ [(t, o)], false))
    ∧ (∀ outs : List (String × RunnerOutput),
       (∀ x ∈ outs, failingOutput x.2 = false) →
       exec_rest false true outs = (outs, true)) := by
  refine ⟨fun outs => ?_, fun pre post t o hpre ho => ?_, fun outs h => ?_⟩
  · simpa [exec_rest] using run_tests_ignore outs
  · simpa [exec_rest] using run_tests_fail_fast pre post t o hpre ho
  · simpa [exec_rest] using run_tests_all_pass outs h

/-- C4, witness: three tests with the middle one failing are cut to two
reported tests and overall failure when errors are not ignored, and all
three are reported with overall success when they are. -/
theorem claim_C4_witness :
    exec_rest false true
        [("t1", ⟨false, true⟩), ("t2", ⟨true, true⟩), ("t3", ⟨false, true⟩)]
      = ([("t1", ⟨false, true⟩), ("t2", ⟨true, true⟩)], false)
    ∧ exec_rest true true
        [("t1", ⟨false, true⟩), ("t2", ⟨true, true⟩), ("t3", ⟨false, true⟩)]
      = ([("t1", ⟨false, true⟩), ("t2", ⟨true, true⟩), ("t3", ⟨false, true⟩)], true) := by
  constructor
  · have h := claim_C4.2.1 [("t1", (⟨false, true⟩ : RunnerOutput))]
      [("t3", (⟨false, true⟩ : RunnerOutput))] "t2" ⟨true, true⟩
      (by intro x hx; simp at hx; subst hx; rfl) rfl
    simpa using h
  · exact claim_C4.1 _

/-! Claim C8. -/

/-- The decimal parser on the literal 5. -/
theorem pyFloat_five : pyFloat "5" = some 5 := by decide

/-- Splitting the concrete timeout line. -/
theorem pySplit_timeout5 : pySplit "timeout 5" = ["timeout", "5"] := by decide

/-- C8: on a test file whose first line is the words timeout and 5, with
no override and no_timeout unset, parse_timeout returns five seconds,
plus the extra timeout when one is supplied; with no_timeout set it
returns no deadline; and on a file whose first line does not start with
the word timeout it returns no deadline. -/
theorem claim_C8 :
    (∀ (fs : FS) (file : String) (e : ℚ),
       fs.first_line file = some "timeout 5" →
         parse_timeout fs file none (some false) none = .ok (some 5)
         ∧ parse_timeout fs file none (some false) (some e) = .ok (some (5 + e))
         ∧ parse_timeout fs file none (some true) none = .ok none)
    ∧ (∀ (fs : FS) (file line : String),
       fs.first_line file = some line →
       (pySplit line).headD "" ≠ "timeout" →
       parse_timeout fs file none (some false) none = .ok none) := by
  constructor
  · intro fs file e h
    refine ⟨?_, ?_, ?_⟩
    · unfold parse_timeout
      rw [h]
      simp [truthyOptBool, truthyOptRat, pySplit_timeout5, pyFloat_five]
    · unfold parse_timeout
      rw [h]
      simp [truthyOptBool, truthyOptRat, pySplit_timeout5, pyFloat_five]
    · unfold parse_timeout
      simp [truthyOptBool]
  · intro fs file line h h2
    unfold parse_timeout
    rw [h]
    have h2b : (pySplit line).head?.getD "" ≠ "timeout" := by
      cases hl : pySplit line with
      | nil => simp [hl]
      | cons a as => simpa [hl] using h2
    simp [truthyOptBool, truthyOptRat, h2b]

/-- C8, witness: the concrete filesystem fs8 evaluates parse_timeout to
five on the timed file (five and a half with a half second extra), to no
deadline under no_timeout, and to no deadline on the unrelated file. -/
theorem claim_C8_witness :
    parse_timeout fs8 "t5" none (some false) none = .ok (some 5)
    ∧ parse_timeout fs8 "t5" none (some false) (some (1 / 2)) = .ok (some (5 + 1 / 2))
    ∧ parse_timeout fs8 "t5" none (some true) none = .ok none
    ∧ parse_timeout fs8 "other" none (some false) none = .ok none := by
  have h1 := (claim_C8.1 fs8 "t5" (1 / 2) (by decide))
  have h2 := claim_C8.2 fs8 "other" "x 1" (by decide) (by decide)
  exact ⟨h1.1, h1.2.1, h1.2.2, h2⟩

/-! Claim C7. -/

/-- The running sum of timeout_for_test_set hits infinity exactly when a
file with no deadline occurs, provided every file evaluates without an
exception. -/
theorem tfs_go_inf_iff (fs : FS) (timeout : Option ℚ) (no_timeout : Option Bool)
    (extra : ℚ) (rs : String → Option ℚ) :
    ∀ (files : List String) (acc : ℚ),
    (∀ f ∈ files, parse_timeout fs f timeout no_timeout (some extra) = .ok (rs f)) →
    (timeout_for_test_set_go fs timeout no_timeout extra files acc = .ok .inf
      ↔ ∃ f ∈ files, rs f = none) := by
  intro files
  induction files with
  | nil =>
    intro acc h
    simp [timeout_for_test_set_go]
  | cons f rest ih =>
    intro acc h
    have hf := h f (List.mem_cons_self _ _)
    have hrest := fun g hg => h g (List.mem_cons_of_mem _ hg)
    rw [timeout_for_test_set_go, hf]
    cases hr : rs f with
    | none => simp [hr]
    | some t =>
      rw [ih (acc + t) hrest]
      simp [hr]

/-- The running sum of timeout_for_test_set is the accumulator plus the
arithmetic sum of the per-file timeouts when every file has a deadline. -/
theorem tfs_go_sum (fs : FS) (timeout : Option ℚ) (no_timeout : Option Bool)
    (extra : ℚ) (rs : String → Option ℚ) :
    ∀ (files : List String) (acc : ℚ),
    (∀ f ∈ files, parse_timeout fs f timeout no_timeout (some extra) = .ok (rs f)) →
    (∀ f ∈ files, rs f ≠ none) →
    timeout_for_test_set_go fs timeout no_timeout extra files acc
      = .ok (.fin (acc + (files.map (fun f => (rs f).getD 0)).sum)) := by
  intro files
  induction files with
  | nil =>
    intro acc h hn
    simp [timeout_for_test_set_go]
  | cons f rest ih =>
    intro acc h hn
    have hf := h f (List.mem_cons_self _ _)
    cases hr : rs f with
    | none => exact absurd hr (hn f (List.mem_cons_self _ _))
    | some t =>
      have hgo : timeout_for_test_set_go fs timeout no_timeout extra (f :: rest) acc
          = timeout_for_test_set_go fs timeout no_timeout extra rest (acc + t) := by
        rw [timeout_for_test_set_go, hf, hr]
      rw [hgo, ih (acc + t) (fun g hg => h g (List.mem_cons_of_mem _ hg))
          (fun g hg => hn g (List.mem_cons_of_mem _ hg))]
      simp [hr, add_assoc]

/-- C7: for a list of test files on which parse_timeout evaluates without
an exception (finite explicit override or none), timeout_for_test_set
returns infinity exactly when at least one file yields no deadline, and
otherwise returns the arithmetic sum of the per-file timeouts. -/
theorem claim_C7 :
    ∀ (fs : FS) (files : List String) (timeout : Option ℚ)
      (no_timeout : Option Bool) (extra : ℚ) (rs : String → Option ℚ),
    (∀ f ∈ files, parse_timeout fs f timeout no_timeout (some extra) = .ok (rs f)) →
    (timeout_for_test_set fs files timeout no_timeout extra = .ok .inf
      ↔ ∃ f ∈ files, rs f = none)
    ∧ ((∀ f ∈ files, rs f ≠ none) →
       timeout_for_test_set fs files timeout no_timeout extra
         = .ok (.fin ((files.map (fun f => (rs f).getD 0)).sum))) := by
  intro fs files timeout no_timeout extra rs h
  constructor
  · exact tfs_go_inf_iff fs timeout no_timeout extra rs files 0 h
  · intro hn
    have := tfs_go_sum fs timeout no_timeout extra rs files 0 h hn
    simpa [timeout_for_test_set] using this

/-- Splitting the other concrete timeout line. -/
theorem pySplit_timeout7 : pySplit "timeout 7" = ["timeout", "7"] := by decide

/-- The decimal parser on the literal 7. -/
theorem pyFloat_seven : pyFloat "7" = some 7 := by decide

/-- Evaluation of parse_timeout on the two timed files of fs7. -/
theorem parse_timeout_fs7 :
    parse_timeout fs7 "ta" none none (some 0) = .ok (some 5)
    ∧ parse_timeout fs7 "tb" none none (some 0) = .ok (some 7) := by
  constructor
  · unfold parse_timeout
    rw [show fs7.first_line "ta" = some "timeout 5" from rfl]
    simp [truthyOptBool, truthyOptRat, pySplit_timeout5, pyFloat_five]
  · unfold parse_timeout
    rw [show fs7.first_line "tb" = some "timeout 7" from rfl]
    simp [truthyOptBool, truthyOptRat, pySplit_timeout7, pyFloat_seven]

/-- C7, witness: on the concrete filesystem fs7 the two timed files sum
to twelve seconds. -/
theorem claim_C7_witness :
    timeout_for_test_set fs7 ["ta", "tb"] none none 0 = .ok (.fin 12) := by
  have h := (claim_C7 fs7 ["ta", "tb"] none none 0
      (fun f => if f = "ta" then some 5 else some 7)
      (by
        intro f hf
        rcases List.mem_cons.mp hf with rfl | hf
        · simpa using parse_timeout_fs7.1
        · rcases List.mem_cons.mp hf with rfl | hf
          · simpa using parse_timeout_fs7.2
          · simp at hf)).2
      (by
        intro f hf
        rcases List.mem_cons.mp hf with rfl | hf
        · simp
        · rcases List.mem_cons.mp hf with rfl | hf
          · simp
          · simp at hf)
  have hne : ("tb" : String) ≠ "ta" := by decide
  rw [h]
  norm_num [hne]

/-! Claim C5. -/

/-- C5, counterexample: with no user patterns and both default globs
non-empty, expand_glob concatenates the matches of every default glob,
whereas the claimed rule that the first non-empty default wins would keep
only the matches of the first default. -/
theorem claim_C5_counterexample :
    expand_glob fs5 [] ["tests/*", "benchmarks/*"] = ["tests/a", "benchmarks/b"]
    ∧ discover_spec_first_nonempty fs5 [] ["tests/*", "benchmarks/*"] = ["tests/a"]
    ∧ expand_glob fs5 [] ["tests/*", "benchmarks/*"]
        ≠ discover_spec_first_nonempty fs5 [] ["tests/*", "benchmarks/*"] := by
  refine ⟨?_, ?_, ?_⟩ <;> decide

/-- C5, amended: user-supplied patterns are each tried as a literal
existing path and otherwise as a glob sorted lexicographically, results
concatenated in pattern order; with no user patterns the default globs
are expanded in exactly the same way and concatenated across all of
them (not first-non-empty-wins); and an empty final list aborts with a
diagnostic naming the rejected user patterns when there were any and the
missing default directories otherwise. -/
theorem claim_C5 :
    (∀ (fs : FS) (user deflt : List String), user ≠ [] →
       expand_glob fs user deflt = (user.map (expand_one fs)).flatten)
    ∧ (∀ (fs : FS) (deflt : List String),
       expand_glob fs [] deflt = (deflt.map (expand_one fs)).flatten)
    ∧ (∀ (fs : FS) (p : String),
       expand_one fs p = if fs.exists_path p then [p] else sortStrings (fs.glob p))
    ∧ (∀ (fs : FS) (user : List String),
       expand_glob fs user ["tests/*", "benchmarks/*"] = [] →
       collect_tests fs user
         = .error (if user.isEmpty then .missingDefaults ["tests", "benchmarks"]
                   else .userPatterns user))
    ∧ (∀ (fs : FS) (user : List String),
       expand_glob fs user ["tests/*", "benchmarks/*"] ≠ [] →
       collect_tests fs user
         = .ok (expand_glob fs user ["tests/*", "benchmarks/*"])) := by
  refine ⟨?_, ?_, ?_, ?_, ?_⟩
  · intro fs user d hu
    cases user with
    | nil => exact absurd rfl hu
    | cons a u => rfl
  · intro fs d
    rfl
  · intro fs p
    rfl
  · intro fs user h
    unfold collect_tests
    rw [h]
    rfl
  · intro fs user h
    unfold collect_tests
    cases he : expand_glob fs user ["tests/*", "benchmarks/*"] with
    | nil => exact absurd he h
    | cons a t => rfl

/-- C5, witness: on the concrete filesystem fs5 a user pattern matching
nothing aborts naming that pattern, and the default discovery returns the
concatenation of both default globs. -/
theorem claim_C5_witness :
    collect_tests fs5 ["q"] = .error (.userPatterns ["q"])
    ∧ collect_tests fs5 [] = .ok ["tests/a", "benchmarks/b"] := by
  constructor
  · have h := claim_C5.2.2.2.1 fs5 ["q"] (by decide)
    rw [h]
    rfl
  · have h := claim_C5.2.2.2.2 fs5 [] (by decide)
    rw [h]
    decide

/-! Claim C3. -/

/-- C3: test-uninit compiler selection accepts exactly a GNU compiler at
major version at least 12 or a Clang compiler at major version at least
8: a pinned compiler with a probed version is returned exactly when it
qualifies and is never substituted; in the automatic path a discovered
GNU compiler below 12 is rejected and the Clang probe decides; and when
selection yields no qualifying compiler, exec reports the limitation and
returns True when not on remote, while on remote it returns True exactly
when ignore_errors is set. -/
theorem claim_C3 :
    (∀ (env : Env) (c : Compiler) (maj mi pa : Int),
       env.config_compiler.isSome = true →
       c.version = some (maj, mi, pa) →
       TestUninit.find_compiler env (some c)
         = .ok (if (c.family = .gcc ∧ 12 ≤ maj) ∨ (c.family = .clang ∧ 8 ≤ maj)
                then some c else none))
    ∧ (∀ (env : Env) (g cl : Compiler) (maj mi pa maj2 mi2 pa2 : Int),
       env.config_compiler.isSome = true →
       env.found_gcc = some g → g.family = .gcc → g.version = some (maj, mi, pa) →
       maj < 12 →
       env.found_clang = some cl → cl.family = .clang →
       cl.version = some (maj2, mi2, pa2) →
       TestUninit.find_compiler env none
         = .ok (if 8 ≤ maj2 then some cl else none))
    ∧ (∀ (env : Env) (on_remote ignore_errors : Bool) (compiler : Option Compiler)
         (er : Compiler → Bool),
       TestUninit.find_compiler env compiler = .ok none →
       TestUninit.exec env on_remote ignore_errors compiler er
         = .ok (if !on_remote then true else ignore_errors)) := by
  refine ⟨?_, ?_, ?_⟩
  · intro env c maj mi pa hcfg hv
    obtain ⟨cc, hcc⟩ := Option.isSome_iff_exists.mp hcfg
    obtain ⟨fam, prog, cf, fl, src, lb, ver, ap⟩ := c
    change ver = some (maj, mi, pa) at hv
    subst hv
    cases fam with
    | base => simp [TestUninit.find_compiler, gcc_check, clang_check, truthy, hcc]
    | gcc =>
      by_cases hm : 12 ≤ maj
      · simp [TestUninit.find_compiler, gcc_check, clang_check, truthy, hcc, hm]
      · simp [TestUninit.find_compiler, gcc_check, clang_check, truthy, hcc, hm]
    | clang =>
      by_cases hm : 8 ≤ maj
      · simp [TestUninit.find_compiler, gcc_check, clang_check, truthy, hcc, hm]
      · simp [TestUninit.find_compiler, gcc_check, clang_check, truthy, hcc, hm]
    | nvcc => simp [TestUninit.find_compiler, gcc_check, clang_check, truthy, hcc]
  · intro env g cl maj mi pa maj2 mi2 pa2 hcfg hg hgf hgv hlt hc hcf hcv
    obtain ⟨cc, hcc⟩ := Option.isSome_iff_exists.mp hcfg
    have hm : ¬ (12 ≤ maj) := by omega
    by_cases hm2 : 8 ≤ maj2
    · simp [TestUninit.find_compiler, gcc_check, clang_check, truthy, hcc,
        hg, hgf, hgv, hm, hc, hcf, hcv, hm2]
    · simp [TestUninit.find_compiler, gcc_check, clang_check, truthy, hcc,
        hg, hgf, hgv, hm, hc, hcf, hcv, hm2]
  · intro env onr ign compiler er h
    unfold TestUninit.exec
    rw [h]
    cases onr <;> cases ign <;> rfl

/-- C3, witness: a pinned gcc at major version 11 is rejected by the
concrete selection environment env3, and the command then reports the
limitation and returns True off remote. -/
theorem claim_C3_witness :
    TestUninit.find_compiler env3
        (some (GccCompiler.make "g++-11" (some (11, 2, 0)))) = .ok none
    ∧ TestUninit.exec env3 false false
        (some (GccCompiler.make "g++-11" (some (11, 2, 0)))) constFalseRest
      = .ok true := by
  have h1 := claim_C3.1 env3 (GccCompiler.make "g++-11" (some (11, 2, 0))) 11 2 0 rfl rfl
  have h1b : TestUninit.find_compiler env3
      (some (GccCompiler.make "g++-11" (some (11, 2, 0)))) = .ok none := by
    rw [h1]
    norm_num [GccCompiler.make]
    intro hcon
    exact absurd hcon (by decide)
  refine ⟨h1b, ?_⟩
  have h2 := claim_C3.2.2 env3 false false
    (some (GccCompiler.make "g++-11" (some (11, 2, 0)))) constFalseRest h1b
  simpa using h2

end PPC
